import Mathlib

/-!
Verification of the scroll-progress engine in src/scroll_storyteller.rs of the
generik crate, against its natural-language specification.

Modelling conventions:
* f64 scalars are modelled as exact rationals ℚ; i32 DOM measurements as ℤ.
* A Rust panic (the only one reachable here is the assert inside f64::clamp
  when min > max) is modelled as Option.none.
* Lean division on ℚ is total with x / 0 = 0, where f64 division yields ±∞.
  Every theorem that touches a division either carries hypotheses excluding a
  zero denominator or does not depend on the quotient value at denominator 0.
* The scroll/resize closures are modelled as explicit state-transition
  functions on the state they capture; a subscriber callback is an opaque
  label (ℕ) and a dispatch is the list of (label, value) invocations the
  handler performs, in invocation order.
-/

namespace Generik

/-- The value Rust f64::clamp returns once its min ≤ max assertion has passed
(clamp body: if self < min then min else if self > max then max else self). -/
def rclampVal (x lo hi : ℚ) : ℚ :=
  if x < lo then lo else if hi < x then hi else x

/-- Rust f64::clamp self min max on exact rationals: panics (none) when
min > max; there is no NaN in ℚ, so the NaN asserts cannot fire. -/
def clampQ (x lo hi : ℚ) : Option ℚ :=
  if lo ≤ hi then some (rclampVal x lo hi) else none

/-- ScrollProgress (scroll_storyteller.rs lines 11-17), f64 fields as ℚ. -/
structure ScrollProgress where
  progress : ℚ
  scroll_y : ℚ
  scroll_height : ℚ
  viewport_height : ℚ
  deriving DecidableEq, Repr

/-- ScrollProgress::calculate_progress (lines 34-42). The mutation of
self.progress is modelled by returning the updated value; none models a panic
of the clamp call. -/
def ScrollProgress.calculate_progress (s : ScrollProgress) : Option ScrollProgress :=
  let max_scroll := max (s.scroll_height - s.viewport_height) 0
  if 0 < max_scroll then
    (clampQ (s.scroll_y / max_scroll) (s.viewport_height / s.scroll_height) 1).map
      (fun p => { s with progress := p })
  else
    some { s with progress := 1 }

/-- ScrollProgress::new (lines 20-32): progress starts at 0, then
calculate_progress runs. -/
def ScrollProgress.new (scroll_y scroll_height viewport_height : ℚ) :
    Option ScrollProgress :=
  ScrollProgress.calculate_progress
    { progress := 0, scroll_y := scroll_y, scroll_height := scroll_height,
      viewport_height := viewport_height }

/-- The progress formula in the words of the spec (spec.md §4.1), stated on the
three inputs alone: max_scroll = max(scroll_extent - viewport_extent, 0); if
max_scroll > 0 then clamp(scroll_offset / max_scroll,
viewport_extent/scroll_extent, 1.0), else 1.0 unconditionally. -/
def spec_progress (scroll_y scroll_height viewport_height : ℚ) : Option ℚ :=
  let max_scroll := max (scroll_height - viewport_height) 0
  if 0 < max_scroll then
    clampQ (scroll_y / max_scroll) (viewport_height / scroll_height) 1
  else
    some 1

/-- EasingFunction (lines 91-100). -/
inductive EasingFunction where
  | Linear
  | EaseIn
  | EaseOut
  | EaseInOut
  | EaseInCubic
  | EaseOutCubic
  | EaseInOutCubic
  deriving DecidableEq, Repr

/-- ScrollProgress::eased (lines 44-72); the f64 literal 0.5 is exactly 1/2. -/
def ScrollProgress.eased (s : ScrollProgress) (easing : EasingFunction) : ℚ :=
  match easing with
  | .Linear => s.progress
  | .EaseIn => s.progress * s.progress
  | .EaseOut => 1 - (1 - s.progress) * (1 - s.progress)
  | .EaseInOut =>
      if s.progress < 1/2 then
        2 * s.progress * s.progress
      else
        let t := -2 * s.progress + 2
        1 - t * t / 2
  | .EaseInCubic => s.progress * s.progress * s.progress
  | .EaseOutCubic =>
      let t := 1 - s.progress
      1 - t * t * t
  | .EaseInOutCubic =>
      if s.progress < 1/2 then
        4 * s.progress * s.progress * s.progress
      else
        let t := -2 * s.progress + 2
        1 - t * t * t / 2

/-- ScrollProgress::in_range (lines 74-83); the arguments named from/to in the
source are f/t here (from is a Lean keyword). -/
def ScrollProgress.in_range (s : ScrollProgress) (f t : ℚ) : ℚ :=
  if s.progress ≤ f then 0
  else if t ≤ s.progress then 1
  else (s.progress - f) / (t - f)

/-- ScrollProgress::is_in_range (lines 85-88). -/
def ScrollProgress.is_in_range (s : ScrollProgress) (f t : ℚ) : Bool :=
  decide (f ≤ s.progress) && decide (s.progress ≤ t)

/-- ScrollStorytellerConfig (lines 102-110): u32 millisecond intervals as ℕ,
f64 pixel offsets as ℚ. -/
structure ScrollStorytellerConfig where
  throttle_ms : ℕ
  smooth_scroll : Bool
  offset_top : ℚ
  offset_bottom : ℚ
  run_straight_away : Bool
  resize_debounce_ms : ℕ
  deriving DecidableEq, Repr

/-- Default for ScrollStorytellerConfig (lines 112-123). -/
def ScrollStorytellerConfig.default : ScrollStorytellerConfig :=
  { throttle_ms := 8, smooth_scroll := true, offset_top := 0, offset_bottom := 0,
    run_straight_away := false, resize_debounce_ms := 250 }

/-- Rust `as i32` cast of an f64: truncate toward zero, saturating at the i32
bounds. -/
def f64_as_i32 (q : ℚ) : ℤ :=
  max (-(2 ^ 31)) (min (2 ^ 31 - 1) (if 0 ≤ q then ⌊q⌋ else ⌈q⌉))

/-- Viewport-extent derivation in the resize handler (lines 211-219):
viewport_height = client_height - offset_top - offset_bottom, then if
`viewport_height as i32 == body.client_height()` subtract
(viewport_height - window.inner_height()) from it. -/
def derive_viewport_height_resize (client_height body_client_height : ℤ)
    (window_inner_height offset_top offset_bottom : ℚ) : ℚ :=
  let viewport_height := (client_height : ℚ) - offset_top - offset_bottom
  if f64_as_i32 viewport_height = body_client_height then
    viewport_height - (viewport_height - window_inner_height)
  else
    viewport_height

/-- The identical viewport-extent derivation in the initial measurement inside
ScrollStoryteller::new (lines 240-245), against the body/window extents read
at construction. -/
def derive_viewport_height_new (client_height current_body_height : ℤ)
    (current_window_height offset_top offset_bottom : ℚ) : ℚ :=
  let viewport_height := (client_height : ℚ) - offset_top - offset_bottom
  if f64_as_i32 viewport_height = current_body_height then
    viewport_height - (viewport_height - current_window_height)
  else
    viewport_height

/-- The derivation as claim C9 words it: identical, except that the comparison
selecting the special case is made against the container's unadjusted client
extent. Follows the claim, not the source; used to refute the claim. -/
def derive_viewport_height_claim (client_height body_client_height : ℤ)
    (window_inner_height offset_top offset_bottom : ℚ) : ℚ :=
  let viewport_height := (client_height : ℚ) - offset_top - offset_bottom
  if client_height = body_client_height then
    viewport_height - (viewport_height - window_inner_height)
  else
    viewport_height

/-- The mutable state of a ScrollStoryteller that the scroll and resize
closures capture (lines 125-132): the current-progress cell, the subscriber
list (opaque labels, in subscription order) and the two last-accepted-event
timestamps (performance.now() values, in ms). -/
structure Tracker where
  config : ScrollStorytellerConfig
  last_progress : ScrollProgress
  callbacks : List ℕ
  last_scroll_time : ℚ
  last_resize_time : ℚ
  deriving DecidableEq, Repr

/-- The scroll closure (lines 165-188) as a state transition: given the
element's scroll_top (an i32) and the current performance.now() clock, returns
the new state and the list of (subscriber, value) invocations performed, in
invocation order; none models a panic inside calculate_progress. An event
arriving within throttle_ms of the last accepted one returns early. -/
def Tracker.scroll_event (tr : Tracker) (scroll_top : ℤ) (now : ℚ) :
    Option (Tracker × List (ℕ × ScrollProgress)) :=
  if now - tr.last_scroll_time < (tr.config.throttle_ms : ℚ) then
    some (tr, [])
  else
    let tr1 := { tr with last_scroll_time := now }
    let np0 := { tr.last_progress with
                  scroll_y := (scroll_top : ℚ) + tr.config.offset_top }
    np0.calculate_progress.map fun np =>
      ({ tr1 with last_progress := np }, tr1.callbacks.map fun c => (c, np))

/-- The resize handler (lines 202-227) as a state transition: re-measures
scroll_top, scroll_height, client_height (all i32) plus the body client height
and window inner height, rebuilds the progress value and dispatches it; an
event within resize_debounce_ms of the last accepted one returns early. -/
def Tracker.resize_event (tr : Tracker)
    (scroll_top scroll_height client_height body_client_height : ℤ)
    (window_inner_height : ℚ) (now : ℚ) :
    Option (Tracker × List (ℕ × ScrollProgress)) :=
  if now - tr.last_resize_time < (tr.config.resize_debounce_ms : ℚ) then
    some (tr, [])
  else
    let tr1 := { tr with last_resize_time := now }
    let scroll_y := (scroll_top : ℚ) + tr.config.offset_top
    let viewport_height := derive_viewport_height_resize client_height
      body_client_height window_inner_height tr.config.offset_top
      tr.config.offset_bottom
    (ScrollProgress.new scroll_y (scroll_height : ℚ) viewport_height).map fun p =>
      ({ tr1 with last_progress := p }, tr1.callbacks.map fun c => (c, p))

/-- The web_sys ScrollToOptions value the programmatic-scroll methods build:
the commanded top offset, and whether ScrollBehavior::Smooth was set. -/
structure ScrollToOptions where
  top : ℚ
  smooth : Bool
  deriving DecidableEq, Repr

/-- ScrollStoryteller::scroll_to_progress (lines 370-384): returns the
(unchanged) tracker state, the issued scroll command, the (empty) list of
subscriber invocations it performs, and its Result value. progress.clamp(0.0,
1.0) has constant ordered bounds, so its panic branch is unreachable and
rclampVal is its value. -/
def Tracker.scroll_to_progress (tr : Tracker) (progress : ℚ) :
    Tracker × ScrollToOptions × List (ℕ × ScrollProgress) × Except String Unit :=
  let clamped_progress := rclampVal progress 0 1
  let current := tr.last_progress
  let max_scroll := max (current.scroll_height - current.viewport_height) 0
  let target_scroll := clamped_progress * max_scroll - tr.config.offset_top
  (tr, { top := target_scroll, smooth := tr.config.smooth_scroll }, [],
    Except.ok ())

/-- ScrollStoryteller::scroll_to_pixels (lines 386-395): issues the raw offset
with the same animation policy; no clamping, no state change, no dispatch. -/
def Tracker.scroll_to_pixels (tr : Tracker) (pixels : ℚ) :
    Tracker × ScrollToOptions × List (ℕ × ScrollProgress) × Except String Unit :=
  (tr, { top := pixels, smooth := tr.config.smooth_scroll }, [], Except.ok ())

/-- One delivery to the closure registered by on_enter_range (lines 320-336):
from the remembered tri-state (None until the first delivery when
run_straight_away is off) and the delivered value, the updated tri-state and
whether the callback fired. -/
def enter_step (f t : ℚ) (was : Option Bool) (p : ScrollProgress) :
    Option Bool × Bool :=
  let is_in := p.is_in_range f t
  match was with
  | none => (some is_in, is_in)
  | some w => (some is_in, is_in && !w)

/-- One delivery to the closure registered by on_exit_range (lines 351-362). -/
def exit_step (f t : ℚ) (was : Option Bool) (p : ScrollProgress) :
    Option Bool × Bool :=
  let is_in := p.is_in_range f t
  match was with
  | none => (some is_in, false)
  | some w => (some is_in, !is_in && w)

/-- Fire flags of an on_enter_range subscription over a sequence of delivered
progress values, starting from tri-state was. -/
def run_enter (f t : ℚ) : Option Bool → List ScrollProgress → List Bool
  | _, [] => []
  | was, p :: ps =>
      (enter_step f t was p).2 :: run_enter f t (enter_step f t was p).1 ps

/-- Fire flags of an on_exit_range subscription over a sequence of delivered
progress values, starting from tri-state was. -/
def run_exit (f t : ℚ) : Option Bool → List ScrollProgress → List Bool
  | _, [] => []
  | was, p :: ps =>
      (exit_step f t was p).2 :: run_exit f t (exit_step f t was p).1 ps

/-- The fire pattern claim C5 ascribes to on_enter_range: fires on the first
delivered value iff it is already in range, afterwards iff the value is in
range and the previous one was not. -/
def enter_fires_claim (f t : ℚ) : List ScrollProgress → List Bool
  | [] => []
  | p :: ps =>
      p.is_in_range f t ::
        List.zipWith
          (fun prev cur => cur.is_in_range f t && !(prev.is_in_range f t))
          (p :: ps) ps

/-- The fire pattern claim C5 ascribes to on_exit_range: never fires on the
first delivered value, afterwards fires iff the value is out of range and the
previous one was in range. -/
def exit_fires_claim (f t : ℚ) : List ScrollProgress → List Bool
  | [] => []
  | p :: ps =>
      false ::
        List.zipWith
          (fun prev cur => !(cur.is_in_range f t) && prev.is_in_range f t)
          (p :: ps) ps

/-- Some delivered value is in range and a strictly later one is out of
range: the condition under which a monotone sweep exits the range. -/
def has_exit_pattern (f t : ℚ) : List ScrollProgress → Bool
  | [] => false
  | p :: ps =>
      (p.is_in_range f t && ps.any fun q => !(q.is_in_range f t)) ||
        has_exit_pattern f t ps

/-- A monotone sweep used as a concrete witness: delivered progress values
0, 1, 2, 3, 4 (only the progress field matters to the range triggers). -/
def sweep_example : List ScrollProgress :=
  [ { progress := 0, scroll_y := 0, scroll_height := 0, viewport_height := 0 },
    { progress := 1, scroll_y := 0, scroll_height := 0, viewport_height := 0 },
    { progress := 2, scroll_y := 0, scroll_height := 0, viewport_height := 0 },
    { progress := 3, scroll_y := 0, scroll_height := 0, viewport_height := 0 },
    { progress := 4, scroll_y := 0, scroll_height := 0, viewport_height := 0 } ]

/-! ## Helper lemmas -/

theorem rclampVal_mem {lo hi : ℚ} (x : ℚ) (h : lo ≤ hi) :
    lo ≤ rclampVal x lo hi ∧ rclampVal x lo hi ≤ hi := by
  unfold rclampVal
  split_ifs with h1 h2 <;> constructor <;> linarith

theorem rclampVal_mono {x y : ℚ} (lo hi : ℚ) (hlh : lo ≤ hi) (hxy : x ≤ y) :
    rclampVal x lo hi ≤ rclampVal y lo hi := by
  unfold rclampVal
  split_ifs with h1 h2 h3 h4 <;> linarith

theorem clampQ_eq_some {lo hi : ℚ} (x : ℚ) (h : lo ≤ hi) :
    clampQ x lo hi = some (rclampVal x lo hi) := by
  simp [clampQ, h]

/-- calculate_progress only rewrites the progress field. -/
theorem calculate_progress_fields (s p : ScrollProgress)
    (h : s.calculate_progress = some p) :
    p.scroll_y = s.scroll_y ∧ p.scroll_height = s.scroll_height ∧
      p.viewport_height = s.viewport_height := by
  unfold ScrollProgress.calculate_progress at h
  dsimp only at h
  split at h
  · rcases Option.map_eq_some'.1 h with ⟨q, _, hq⟩
    subst hq
    exact ⟨rfl, rfl, rfl⟩
  · cases h
    exact ⟨rfl, rfl, rfl⟩

/-- On an integer in i32 range, the `as i32` cast is the identity. -/
theorem f64_as_i32_intCast (n : ℤ) (h1 : -(2 ^ 31) ≤ n) (h2 : n ≤ 2 ^ 31 - 1) :
    f64_as_i32 (n : ℚ) = n := by
  unfold f64_as_i32
  rcases le_or_lt 0 (n : ℚ) with h | h
  · rw [if_pos h, Int.floor_intCast, min_eq_right h2, max_eq_right h1]
  · rw [if_neg (not_le.2 h), Int.ceil_intCast, min_eq_right h2, max_eq_right h1]

/-- ScrollProgress::new only computes the progress field; the three
measurements are stored as given. -/
theorem new_fields (sy sh vh : ℚ) (p : ScrollProgress)
    (h : ScrollProgress.new sy sh vh = some p) :
    p.scroll_y = sy ∧ p.scroll_height = sh ∧ p.viewport_height = vh :=
  calculate_progress_fields _ _ h

/-- Rust clamp with the ordered constant bounds 0 ≤ 1 agrees with the
mathematical clamp max 0 (min x 1). -/
theorem rclampVal_zero_one (p : ℚ) : rclampVal p 0 1 = max 0 (min p 1) := by
  unfold rclampVal
  rcases lt_or_le p 0 with h | h
  · rw [if_pos h, min_eq_left (by linarith), max_eq_left (by linarith)]
  · rw [if_neg (not_lt.2 h)]
    rcases lt_or_le 1 p with h1 | h1
    · rw [if_pos h1, min_eq_right (le_of_lt h1), max_eq_right (by norm_num)]
    · rw [if_neg (not_lt.2 h1), min_eq_left h1, max_eq_right h]

theorem is_in_range_iff (s : ScrollProgress) (f t : ℚ) :
    s.is_in_range f t = true ↔ f ≤ s.progress ∧ s.progress ≤ t := by
  simp [ScrollProgress.is_in_range]

/-- A value at or past the lower bound that is not in range lies above the
upper bound. -/
theorem not_in_range_high {s : ScrollProgress} {f t : ℚ}
    (hf : f ≤ s.progress) (h : s.is_in_range f t = false) : t < s.progress := by
  by_contra hc
  rw [(is_in_range_iff s f t).2 ⟨hf, not_lt.1 hc⟩] at h
  cases h

theorem run_enter_some (f t : ℚ) (prev : ScrollProgress) :
    ∀ ps : List ScrollProgress,
      run_enter f t (some (prev.is_in_range f t)) ps =
        List.zipWith
          (fun a b => b.is_in_range f t && !(a.is_in_range f t))
          (prev :: ps) ps
  | [] => rfl
  | p :: ps => by
      simp only [run_enter, enter_step, List.zipWith]
      exact congrArg _ (run_enter_some f t p ps)

theorem run_exit_some (f t : ℚ) (prev : ScrollProgress) :
    ∀ ps : List ScrollProgress,
      run_exit f t (some (prev.is_in_range f t)) ps =
        List.zipWith
          (fun a b => !(b.is_in_range f t) && a.is_in_range f t)
          (prev :: ps) ps
  | [] => rfl
  | p :: ps => by
      simp only [run_exit, exit_step, List.zipWith]
      exact congrArg _ (run_exit_some f t p ps)

theorem run_enter_char (f t : ℚ) :
    ∀ ps : List ScrollProgress,
      run_enter f t none ps = enter_fires_claim f t ps
  | [] => rfl
  | p :: ps => by
      simp only [run_enter, enter_step, enter_fires_claim]
      exact congrArg _ (run_enter_some f t p ps)

theorem run_exit_char (f t : ℚ) :
    ∀ ps : List ScrollProgress,
      run_exit f t none ps = exit_fires_claim f t ps
  | [] => rfl
  | p :: ps => by
      simp only [run_exit, exit_step, exit_fires_claim]
      exact congrArg _ (run_exit_some f t p ps)

/-- If no delivered value is in range, an enter subscription never fires,
whatever its tri-state. -/
theorem run_enter_count_zero (f t : ℚ) :
    ∀ ps : List ScrollProgress,
      (∀ p ∈ ps, p.is_in_range f t = false) →
      ∀ was, List.count true (run_enter f t was ps) = 0
  | [], _, _ => rfl
  | p :: ps, h, was => by
      have hp : p.is_in_range f t = false := h p (List.mem_cons_self p ps)
      have ih := run_enter_count_zero f t ps
        (fun q hq => h q (List.mem_cons_of_mem p hq))
      cases was with
      | none => simp [run_enter, enter_step, hp, List.count_cons, ih]
      | some w => simp [run_enter, enter_step, hp, List.count_cons, ih]

/-- After the sweep has been inside the range, a monotone remainder whose
values stay at or past the lower bound produces no further enter fires. -/
theorem run_enter_count_after_in (f t : ℚ) :
    ∀ ps : List ScrollProgress,
      List.Pairwise (fun a b => a.progress ≤ b.progress) ps →
      (∀ p ∈ ps, f ≤ p.progress) →
      List.count true (run_enter f t (some true) ps) = 0
  | [], _, _ => rfl
  | p :: ps, hpw, hf => by
      rcases List.pairwise_cons.1 hpw with ⟨hhead, htail⟩
      have hfp : f ≤ p.progress := hf p (List.mem_cons_self p ps)
      by_cases hin : p.is_in_range f t = true
      · have ih := run_enter_count_after_in f t ps htail
          (fun q hq => hf q (List.mem_cons_of_mem p hq))
        simp [run_enter, enter_step, hin, List.count_cons, ih]
      · have hin' : p.is_in_range f t = false := Bool.not_eq_true _ ▸
          (Bool.eq_false_iff.2 hin)
        have hub : t < p.progress := not_in_range_high hfp hin'
        have hz := run_enter_count_zero f t ps
          (fun q hq => by
            have : t < q.progress := lt_of_lt_of_le hub (hhead q hq)
            rw [← Bool.not_eq_true]
            intro hq'
            exact absurd ((is_in_range_iff q f t).1 hq').2 (not_le.2 this))
        simp [run_enter, enter_step, hin', List.count_cons, hz]

/-- From tri-state out-of-range, a monotone sweep fires the enter callback
exactly once iff it meets the range. -/
theorem run_enter_count_before (f t : ℚ) :
    ∀ ps : List ScrollProgress,
      List.Pairwise (fun a b => a.progress ≤ b.progress) ps →
      List.count true (run_enter f t (some false) ps) =
        if ps.any (fun p => p.is_in_range f t) then 1 else 0
  | [], _ => rfl
  | p :: ps, hpw => by
      rcases List.pairwise_cons.1 hpw with ⟨hhead, htail⟩
      by_cases hin : p.is_in_range f t = true
      · have hfp : f ≤ p.progress := ((is_in_range_iff p f t).1 hin).1
        have hz := run_enter_count_after_in f t ps htail
          (fun q hq => le_trans hfp (hhead q hq))
        simp [run_enter, enter_step, hin, List.count_cons, hz, List.any_cons]
      · have hin' : p.is_in_range f t = false :=
          Bool.eq_false_iff.2 hin
        have ih := run_enter_count_before f t ps htail
        simp [run_enter, enter_step, hin', List.count_cons, ih, List.any_cons]

/-- Monotone sweep, fresh subscription: the enter callback fires exactly once
iff some delivered value is in range. -/
theorem run_enter_sweep (f t : ℚ) :
    ∀ ps : List ScrollProgress,
      List.Pairwise (fun a b => a.progress ≤ b.progress) ps →
      List.count true (run_enter f t none ps) =
        if ps.any (fun p => p.is_in_range f t) then 1 else 0
  | [], _ => rfl
  | p :: ps, hpw => by
      rcases List.pairwise_cons.1 hpw with ⟨hhead, htail⟩
      by_cases hin : p.is_in_range f t = true
      · have hfp : f ≤ p.progress := ((is_in_range_iff p f t).1 hin).1
        have hz := run_enter_count_after_in f t ps htail
          (fun q hq => le_trans hfp (hhead q hq))
        simp [run_enter, enter_step, hin, List.count_cons, hz, List.any_cons]
      · have hin' : p.is_in_range f t = false :=
          Bool.eq_false_iff.2 hin
        have ih := run_enter_count_before f t ps htail
        simp [run_enter, enter_step, hin', List.count_cons, ih, List.any_cons]

/-- While every delivered value is in range, an exit subscription never
fires, whatever its tri-state. -/
theorem run_exit_count_all_in (f t : ℚ) :
    ∀ ps : List ScrollProgress,
      (∀ p ∈ ps, p.is_in_range f t = true) →
      ∀ was, List.count true (run_exit f t was ps) = 0
  | [], _, _ => rfl
  | p :: ps, h, was => by
      have hp : p.is_in_range f t = true := h p (List.mem_cons_self p ps)
      have ih := run_exit_count_all_in f t ps
        (fun q hq => h q (List.mem_cons_of_mem p hq))
      cases was with
      | none => simp [run_exit, exit_step, hp, List.count_cons, ih]
      | some w => simp [run_exit, exit_step, hp, List.count_cons, ih]

/-- From tri-state out-of-range, a wholly out-of-range remainder produces no
exit fires. -/
theorem run_exit_count_all_out (f t : ℚ) :
    ∀ ps : List ScrollProgress,
      (∀ p ∈ ps, p.is_in_range f t = false) →
      List.count true (run_exit f t (some false) ps) = 0
  | [], _ => rfl
  | p :: ps, h => by
      have hp : p.is_in_range f t = false := h p (List.mem_cons_self p ps)
      have ih := run_exit_count_all_out f t ps
        (fun q hq => h q (List.mem_cons_of_mem p hq))
      simp [run_exit, exit_step, hp, List.count_cons, ih]

/-- No exit pattern exists in a wholly in-range sequence. -/
theorem has_exit_pattern_all_in (f t : ℚ) :
    ∀ ps : List ScrollProgress,
      (∀ p ∈ ps, p.is_in_range f t = true) →
      has_exit_pattern f t ps = false
  | [], _ => rfl
  | p :: ps, h => by
      have ih := has_exit_pattern_all_in f t ps
        (fun q hq => h q (List.mem_cons_of_mem p hq))
      have hq : ∀ q ∈ ps, q.is_in_range f t = true :=
        fun q hq => h q (List.mem_cons_of_mem p hq)
      simp only [has_exit_pattern, ih, Bool.or_false, Bool.and_eq_false_iff]
      right
      simp only [List.any_eq_false]
      intro q hqm
      simp [hq q hqm]

/-- After the sweep has been inside the range with a monotone remainder at or
past the lower bound, the exit callback fires exactly once iff some later
value is out of range. -/
theorem run_exit_count_after_in (f t : ℚ) :
    ∀ ps : List ScrollProgress,
      List.Pairwise (fun a b => a.progress ≤ b.progress) ps →
      (∀ p ∈ ps, f ≤ p.progress) →
      List.count true (run_exit f t (some true) ps) =
        if ps.any (fun p => !(p.is_in_range f t)) then 1 else 0
  | [], _, _ => rfl
  | p :: ps, hpw, hf => by
      rcases List.pairwise_cons.1 hpw with ⟨hhead, htail⟩
      have hfp : f ≤ p.progress := hf p (List.mem_cons_self p ps)
      by_cases hin : p.is_in_range f t = true
      · have ih := run_exit_count_after_in f t ps htail
          (fun q hq => hf q (List.mem_cons_of_mem p hq))
        simp [run_exit, exit_step, hin, List.count_cons, ih, List.any_cons]
      · have hin' : p.is_in_range f t = false := Bool.eq_false_iff.2 hin
        have hub : t < p.progress := not_in_range_high hfp hin'
        have hz := run_exit_count_all_out f t ps
          (fun q hq => by
            have : t < q.progress := lt_of_lt_of_le hub (hhead q hq)
            rw [← Bool.not_eq_true]
            intro hq'
            exact absurd ((is_in_range_iff q f t).1 hq').2 (not_le.2 this))
        simp [run_exit, exit_step, hin', List.count_cons, hz, List.any_cons]

/-- From tri-state out-of-range, a monotone sweep fires the exit callback
exactly once iff it contains an in-range value followed by an out-of-range
one. -/
theorem run_exit_count_before (f t : ℚ) :
    ∀ ps : List ScrollProgress,
      List.Pairwise (fun a b => a.progress ≤ b.progress) ps →
      List.count true (run_exit f t (some false) ps) =
        if has_exit_pattern f t ps then 1 else 0
  | [], _ => rfl
  | p :: ps, hpw => by
      rcases List.pairwise_cons.1 hpw with ⟨hhead, htail⟩
      by_cases hin : p.is_in_range f t = true
      · have hfp : f ≤ p.progress := ((is_in_range_iff p f t).1 hin).1
        have hcnt := run_exit_count_after_in f t ps htail
          (fun q hq => le_trans hfp (hhead q hq))
        by_cases hany : ps.any (fun q => !(q.is_in_range f t)) = true
        · simp [run_exit, exit_step, hin, List.count_cons, hcnt, hany,
            has_exit_pattern]
        · have hall : ∀ q ∈ ps, q.is_in_range f t = true := by
            intro q hq
            by_contra hc
            exact hany (List.any_eq_true.2
              ⟨q, hq, by simp [Bool.eq_false_iff.2 hc]⟩)
          have hnp := has_exit_pattern_all_in f t ps hall
          simp [run_exit, exit_step, hin, List.count_cons, hcnt, hany,
            has_exit_pattern, hnp, Bool.eq_false_iff.1]
      · have hin' : p.is_in_range f t = false := Bool.eq_false_iff.2 hin
        have ih := run_exit_count_before f t ps htail
        simp [run_exit, exit_step, hin', List.count_cons, ih,
          has_exit_pattern]

/-- Monotone sweep, fresh subscription: the exit callback fires exactly once
iff the sweep enters and then leaves the range. -/
theorem run_exit_sweep (f t : ℚ) :
    ∀ ps : List ScrollProgress,
      List.Pairwise (fun a b => a.progress ≤ b.progress) ps →
      List.count true (run_exit f t none ps) =
        if has_exit_pattern f t ps then 1 else 0
  | [], _ => rfl
  | p :: ps, hpw => by
      rcases List.pairwise_cons.1 hpw with ⟨hhead, htail⟩
      by_cases hin : p.is_in_range f t = true
      · have hfp : f ≤ p.progress := ((is_in_range_iff p f t).1 hin).1
        have hcnt := run_exit_count_after_in f t ps htail
          (fun q hq => le_trans hfp (hhead q hq))
        by_cases hany : ps.any (fun q => !(q.is_in_range f t)) = true
        · simp [run_exit, exit_step, hin, List.count_cons, hcnt, hany,
            has_exit_pattern]
        · have hall : ∀ q ∈ ps, q.is_in_range f t = true := by
            intro q hq
            by_contra hc
            exact hany (List.any_eq_true.2
              ⟨q, hq, by simp [Bool.eq_false_iff.2 hc]⟩)
          have hnp := has_exit_pattern_all_in f t ps hall
          simp [run_exit, exit_step, hin, List.count_cons, hcnt, hany,
            has_exit_pattern, hnp]
      · have hin' : p.is_in_range f t = false := Bool.eq_false_iff.2 hin
        have ih := run_exit_count_before f t ps htail
        simp [run_exit, exit_step, hin', List.count_cons, ih,
          has_exit_pattern]

/-! ## Theorems for the claims -/

/-- C1: calculate_progress computes max_scroll = max(scroll_height -
viewport_height, 0); when max_scroll > 0 it sets progress =
clamp(scroll_y / max_scroll, viewport_height / scroll_height, 1.0) and
otherwise sets progress = 1.0 unconditionally; with scroll_height = 1000 and
viewport_height = 200, scroll_y = 800 gives progress 1.0 and scroll_y = 400
gives progress 0.5. -/
theorem C1_progress_formula :
    (∀ s : ScrollProgress,
      s.calculate_progress =
        (spec_progress s.scroll_y s.scroll_height s.viewport_height).map
          (fun p => { s with progress := p }))
    ∧ (ScrollProgress.new 800 1000 200).map ScrollProgress.progress = some 1
    ∧ (ScrollProgress.new 400 1000 200).map ScrollProgress.progress = some (1/2) := by
  refine ⟨fun s => ?_,
    by norm_num [ScrollProgress.new, ScrollProgress.calculate_progress, clampQ,
      rclampVal, max_def],
    by norm_num [ScrollProgress.new, ScrollProgress.calculate_progress, clampQ,
      rclampVal, max_def]⟩
  unfold ScrollProgress.calculate_progress spec_progress
  dsimp only
  split <;> rfl

/-- C2 is falsified as stated: at the finite f64-representable inputs
scroll_y = 0, scroll_height = -1, viewport_height = -2 we get
max_scroll = max(-1 - (-2), 0) = 1 > 0 and the clamp lower bound is
(-2)/(-1) = 2 > 1.0, so f64::clamp's min ≤ max assertion fails and the call
panics: the embedding returns none rather than a value. -/
theorem C2_counterexample :
    ScrollProgress.calculate_progress
      { progress := 0, scroll_y := 0, scroll_height := -1, viewport_height := -2 }
      = none := by
  norm_num [ScrollProgress.calculate_progress, clampQ, rclampVal, max_def]

/-- C2 (amended): restricted to scroll_height ≥ 0 — which every DOM-measured
scroll extent satisfies — calculate_progress is total: on the branch where the
clamp is evaluated its lower bound viewport_height / scroll_height is ≤ 1, so
the clamp cannot panic and a value is always returned. -/
theorem C2_amended_totality (s : ScrollProgress) (h : 0 ≤ s.scroll_height) :
    (0 < max (s.scroll_height - s.viewport_height) 0 →
      s.viewport_height / s.scroll_height ≤ 1)
    ∧ (s.calculate_progress).isSome := by
  have key : 0 < max (s.scroll_height - s.viewport_height) 0 →
      s.viewport_height / s.scroll_height ≤ 1 := by
    intro hpos
    have hd : 0 < s.scroll_height - s.viewport_height := by
      rcases lt_max_iff.1 hpos with h1 | h1
      · exact h1
      · exact absurd h1 (lt_irrefl 0)
    rcases eq_or_lt_of_le h with h0 | h0
    · rw [← h0, div_zero]
      norm_num
    · rw [div_le_one h0]
      linarith
  refine ⟨key, ?_⟩
  unfold ScrollProgress.calculate_progress
  dsimp only
  split
  · next hpos =>
      rw [clampQ_eq_some _ (le_trans (key hpos) le_rfl)]
      rfl
  · rfl

theorem C2_amended_totality_witness :
    (0:ℚ) ≤ 1000 ∧
      (ScrollProgress.calculate_progress
        { progress := 0, scroll_y := 800, scroll_height := 1000,
          viewport_height := 200 }).isSome :=
  ⟨by norm_num,
    (C2_amended_totality
      { progress := 0, scroll_y := 800, scroll_height := 1000,
        viewport_height := 200 } (by norm_num)).2⟩

/-- C3: for fixed extents with 0 < viewport_height < scroll_height, the
computed progress lies in [viewport_height/scroll_height, 1] and is monotone
non-decreasing in scroll_y. -/
theorem C3_bounds_and_monotone (sh vh sy1 sy2 : ℚ)
    (hv : 0 < vh) (hs : vh < sh) (hle : sy1 ≤ sy2) :
    ∃ p1 p2 : ScrollProgress,
      ScrollProgress.new sy1 sh vh = some p1 ∧
      ScrollProgress.new sy2 sh vh = some p2 ∧
      vh / sh ≤ p1.progress ∧ p1.progress ≤ 1 ∧ p1.progress ≤ p2.progress := by
  have hsh : 0 < sh := lt_trans hv hs
  have hub : vh / sh ≤ 1 := le_of_lt ((div_lt_one hsh).2 hs)
  have hms : max (sh - vh) 0 = sh - vh := max_eq_left (by linarith)
  have hpos : 0 < max (sh - vh) 0 := by rw [hms]; linarith
  have hcalc : ∀ sy : ℚ, ScrollProgress.new sy sh vh =
      some { progress := rclampVal (sy / (sh - vh)) (vh / sh) 1,
             scroll_y := sy, scroll_height := sh, viewport_height := vh } := by
    intro sy
    unfold ScrollProgress.new ScrollProgress.calculate_progress
    dsimp only
    rw [if_pos hpos, hms, clampQ_eq_some _ hub]
    rfl
  refine ⟨_, _, hcalc sy1, hcalc sy2, ?_, ?_, ?_⟩
  · exact (rclampVal_mem _ hub).1
  · exact (rclampVal_mem _ hub).2
  · refine rclampVal_mono _ _ hub ?_
    gcongr
    linarith

theorem C3_bounds_and_monotone_witness :
    ∃ p1 p2 : ScrollProgress,
      ScrollProgress.new 0 1000 200 = some p1 ∧
      ScrollProgress.new 400 1000 200 = some p2 ∧
      (200:ℚ) / 1000 ≤ p1.progress ∧ p1.progress ≤ 1 ∧ p1.progress ≤ p2.progress :=
  C3_bounds_and_monotone 1000 200 0 400 (by norm_num) (by norm_num) (by norm_num)

/-- C6: with from < to, in_range is exactly 0 at or below from, exactly 1 at
or above to, and the linear re-map (progress - from)/(to - from) strictly
between, and is_in_range is the inclusive membership test. -/
theorem C6_range_mapping (s : ScrollProgress) (f t : ℚ) (hft : f < t) :
    (s.progress ≤ f → s.in_range f t = 0) ∧
    (t ≤ s.progress → s.in_range f t = 1) ∧
    (f < s.progress → s.progress < t → s.in_range f t = (s.progress - f) / (t - f)) ∧
    (s.is_in_range f t = true ↔ f ≤ s.progress ∧ s.progress ≤ t) := by
  unfold ScrollProgress.in_range ScrollProgress.is_in_range
  refine ⟨fun h => by rw [if_pos h], fun h => ?_, fun h1 h2 => ?_, ?_⟩
  · rw [if_neg (by linarith), if_pos h]
  · rw [if_neg (by linarith), if_neg (by linarith)]
  · simp

theorem C6_range_mapping_witness :
    (0:ℚ) < 1 ∧
      (({ progress := 1/2, scroll_y := 0, scroll_height := 0,
          viewport_height := 0 } : ScrollProgress).is_in_range 0 1 = true ↔
        (0:ℚ) ≤ 1/2 ∧ (1/2:ℚ) ≤ 1) :=
  ⟨by norm_num,
    (C6_range_mapping
      { progress := 1/2, scroll_y := 0, scroll_height := 0, viewport_height := 0 }
      0 1 (by norm_num)).2.2.2⟩

/-- C7: every built-in easing kind maps progress 0 to 0 and progress 1 to 1,
and maps any progress in [0,1] into [0,1]. -/
theorem C7_easing_bounds (e : EasingFunction) (s : ScrollProgress) :
    (s.progress = 0 → s.eased e = 0) ∧
    (s.progress = 1 → s.eased e = 1) ∧
    (0 ≤ s.progress → s.progress ≤ 1 → 0 ≤ s.eased e ∧ s.eased e ≤ 1) := by
  obtain ⟨p, sy, sh, vh⟩ := s
  cases e
  case Linear =>
    exact ⟨fun h0 => h0, fun h1 => h1, fun hl hu => ⟨hl, hu⟩⟩
  case EaseIn =>
    refine ⟨fun h0 => ?_, fun h1 => ?_, fun hl hu => ⟨?_, ?_⟩⟩ <;>
      simp only [ScrollProgress.eased]
    · subst h0; norm_num
    · subst h1; norm_num
    · nlinarith
    · nlinarith
  case EaseOut =>
    refine ⟨fun h0 => ?_, fun h1 => ?_, fun hl hu => ⟨?_, ?_⟩⟩ <;>
      simp only [ScrollProgress.eased]
    · subst h0; norm_num
    · subst h1; norm_num
    · nlinarith
    · nlinarith
  case EaseInCubic =>
    refine ⟨fun h0 => ?_, fun h1 => ?_, fun hl hu => ⟨?_, ?_⟩⟩ <;>
      simp only [ScrollProgress.eased]
    · subst h0; norm_num
    · subst h1; norm_num
    · exact mul_nonneg (mul_nonneg hl hl) hl
    · nlinarith [mul_nonneg hl hl, mul_nonneg (mul_nonneg hl hl) hl]
  case EaseOutCubic =>
    refine ⟨fun h0 => ?_, fun h1 => ?_, fun hl hu => ⟨?_, ?_⟩⟩ <;>
      simp only [ScrollProgress.eased]
    · subst h0; norm_num
    · subst h1; norm_num
    · nlinarith [mul_nonneg (mul_nonneg (sub_nonneg.2 hu) (sub_nonneg.2 hu))
        (sub_nonneg.2 hu)]
    · nlinarith [mul_nonneg (mul_nonneg (sub_nonneg.2 hu) (sub_nonneg.2 hu))
        (sub_nonneg.2 hu)]
  case EaseInOut =>
    refine ⟨fun h0 => ?_, fun h1 => ?_, fun hl hu => ⟨?_, ?_⟩⟩ <;>
      simp only [ScrollProgress.eased]
    · subst h0; norm_num
    · subst h1; norm_num
    · split_ifs with h <;> nlinarith [sq_nonneg p, sq_nonneg (2 - 2*p)]
    · split_ifs with h <;> nlinarith [sq_nonneg p, sq_nonneg (2 - 2*p)]
  case EaseInOutCubic =>
    refine ⟨fun h0 => ?_, fun h1 => ?_, fun hl hu => ⟨?_, ?_⟩⟩ <;>
      simp only [ScrollProgress.eased]
    · subst h0; norm_num
    · subst h1; norm_num
    · split_ifs with h
      · exact mul_nonneg (mul_nonneg (by linarith) hl) hl
      · nlinarith [mul_nonneg (show (0:ℚ) ≤ 2*p - 1 by linarith)
            (sq_nonneg (2 - 2*p)),
          mul_nonneg (show (0:ℚ) ≤ 2*p - 1 by linarith)
            (show (0:ℚ) ≤ 3 - 2*p by linarith)]
    · split_ifs with h
      · nlinarith [mul_nonneg (show (0:ℚ) ≤ 1/2 - p by linarith) (sq_nonneg p),
          mul_nonneg (show (0:ℚ) ≤ 1/2 - p by linarith)
            (show (0:ℚ) ≤ 1/2 + p by linarith)]
      · nlinarith [mul_nonneg (mul_nonneg (show (0:ℚ) ≤ 2 - 2*p by linarith)
          (show (0:ℚ) ≤ 2 - 2*p by linarith)) (show (0:ℚ) ≤ 2 - 2*p by linarith)]

theorem C7_easing_bounds_witness :
    (0:ℚ) ≤ 3/4 ∧ (3/4:ℚ) ≤ 1 ∧
      0 ≤ ({ progress := 3/4, scroll_y := 0, scroll_height := 0,
              viewport_height := 0 } : ScrollProgress).eased .EaseInOut ∧
      ({ progress := 3/4, scroll_y := 0, scroll_height := 0,
          viewport_height := 0 } : ScrollProgress).eased .EaseInOut ≤ 1 := by
  have h := (C7_easing_bounds .EaseInOut
    { progress := 3/4, scroll_y := 0, scroll_height := 0,
      viewport_height := 0 }).2.2 (by norm_num) (by norm_num)
  exact ⟨by norm_num, by norm_num, h.1, h.2⟩

/-- C4: for two scroll events at clock times t and t + d with the first
accepted (last_scroll_time = t), if d < throttle_ms the second performs no
recomputation, no store and no dispatch and leaves the timestamp alone; if
d ≥ throttle_ms it advances the timestamp to t + d, re-reads scroll_top plus
offset_top, recomputes and stores progress, and invokes every subscriber in
subscription order with the new value. -/
theorem C4_scroll_throttling (tr : Tracker) (t d : ℚ) (scroll_top : ℤ)
    (hlast : tr.last_scroll_time = t) :
    (d < (tr.config.throttle_ms : ℚ) →
      tr.scroll_event scroll_top (t + d) = some (tr, []))
    ∧ ((tr.config.throttle_ms : ℚ) ≤ d →
      ∀ np : ScrollProgress,
        ({ tr.last_progress with
            scroll_y := (scroll_top : ℚ) + tr.config.offset_top
          }).calculate_progress = some np →
        tr.scroll_event scroll_top (t + d) =
          some ({ tr with last_scroll_time := t + d, last_progress := np },
            tr.callbacks.map fun c => (c, np))) := by
  have harith : t + d - t = d := by ring
  constructor
  · intro hd
    unfold Tracker.scroll_event
    rw [hlast, harith, if_pos hd]
  · intro hd np hnp
    unfold Tracker.scroll_event
    rw [hlast, harith, if_neg (not_lt.2 hd)]
    dsimp only
    rw [hnp]
    rfl

theorem C4_scroll_throttling_witness :
    Tracker.scroll_event
      { config := ScrollStorytellerConfig.default,
        last_progress := { progress := 1, scroll_y := 0, scroll_height := 1000,
                           viewport_height := 200 },
        callbacks := [0, 1], last_scroll_time := 100, last_resize_time := 0 }
      400 (100 + 8) =
      some ({ config := ScrollStorytellerConfig.default,
              last_progress := { progress := 1/2, scroll_y := 400,
                                 scroll_height := 1000, viewport_height := 200 },
              callbacks := [0, 1], last_scroll_time := 100 + 8,
              last_resize_time := 0 },
        [(0, { progress := 1/2, scroll_y := 400, scroll_height := 1000,
               viewport_height := 200 }),
         (1, { progress := 1/2, scroll_y := 400, scroll_height := 1000,
               viewport_height := 200 })]) := by
  have h := (C4_scroll_throttling
    { config := ScrollStorytellerConfig.default,
      last_progress := { progress := 1, scroll_y := 0, scroll_height := 1000,
                         viewport_height := 200 },
      callbacks := [0, 1], last_scroll_time := 100, last_resize_time := 0 }
    100 8 400 rfl).2
    (by norm_num [ScrollStorytellerConfig.default])
    { progress := 1/2, scroll_y := 400, scroll_height := 1000,
      viewport_height := 200 }
    (by norm_num [ScrollProgress.calculate_progress, clampQ, rclampVal,
      max_def, ScrollStorytellerConfig.default])
  exact h

/-- C8: scroll_to_progress p issues a scroll command to offset
clamp(p, 0, 1) · max(scroll_height - viewport_height, 0) - offset_top built
from the stored extents, smooth iff configured; it leaves the tracker state
untouched, dispatches to no subscriber, and with stored extents (1000, 200)
commands offset 0.5·800 - offset_top at p = 0.5. -/
theorem C8_scroll_to_progress_formula :
    (∀ (tr : Tracker) (p : ℚ),
      tr.scroll_to_progress p =
        (tr,
          { top := max 0 (min p 1) *
                max (tr.last_progress.scroll_height -
                  tr.last_progress.viewport_height) 0 -
              tr.config.offset_top,
            smooth := tr.config.smooth_scroll },
          [], Except.ok ()))
    ∧ (∀ (cfg : ScrollStorytellerConfig) (pr sy tsc trz : ℚ) (cbs : List ℕ),
        (Tracker.scroll_to_progress
          { config := cfg,
            last_progress := { progress := pr, scroll_y := sy,
                               scroll_height := 1000, viewport_height := 200 },
            callbacks := cbs, last_scroll_time := tsc, last_resize_time := trz }
          (1/2)).2.1.top = 400 - cfg.offset_top) := by
  constructor
  · intro tr p
    unfold Tracker.scroll_to_progress
    dsimp only
    rw [rclampVal_zero_one]
  · intro cfg pr sy tsc trz cbs
    unfold Tracker.scroll_to_progress
    dsimp only
    rw [rclampVal_zero_one]
    norm_num [max_def]

/-- C9 is falsified on the comparison clause: with client extent 100, body
client extent 90, offsets top 10 bottom 0 and window extent 555, the code
compares the adjusted value 100 - 10 - 0 = 90 (as i32) against the body extent
and substitutes the window extent (555), while the claim compares the
unadjusted client extent 100 against 90 and keeps 90. -/
theorem C9_counterexample :
    derive_viewport_height_resize 100 90 555 10 0 ≠
      derive_viewport_height_claim 100 90 555 10 0 := by
  have hcast : ((100 : ℤ) : ℚ) - 10 - 0 = ((90 : ℤ) : ℚ) := by push_cast; ring
  unfold derive_viewport_height_resize derive_viewport_height_claim
  dsimp only
  rw [hcast, f64_as_i32_intCast 90 (by norm_num) (by norm_num),
    if_pos rfl, if_neg (by norm_num)]
  norm_num

/-- C9 (amended): on every accepted resize event (and identically in the
initial measurement at construction), the viewport extent becomes the
container's client extent minus offset_top and offset_bottom, except that when
that adjusted value, truncated to i32, equals the document body's client
extent, the window's own inner extent is substituted: the selecting comparison
uses the adjusted value, not the unadjusted client extent. -/
theorem C9_amended_viewport_derivation :
    (∀ (c b : ℤ) (w ot ob : ℚ),
      derive_viewport_height_resize c b w ot ob =
        if f64_as_i32 ((c : ℚ) - ot - ob) = b then w else (c : ℚ) - ot - ob)
    ∧ (∀ (c b : ℤ) (w ot ob : ℚ),
      derive_viewport_height_new c b w ot ob =
        derive_viewport_height_resize c b w ot ob)
    ∧ (∀ (tr : Tracker) (st sh ch bch : ℤ) (wih now : ℚ)
        (tr2 : Tracker) (disp : List (ℕ × ScrollProgress)),
        ¬ now - tr.last_resize_time < (tr.config.resize_debounce_ms : ℚ) →
        tr.resize_event st sh ch bch wih now = some (tr2, disp) →
        tr2.last_progress.viewport_height =
          derive_viewport_height_resize ch bch wih tr.config.offset_top
            tr.config.offset_bottom) := by
  refine ⟨fun c b w ot ob => ?_, fun c b w ot ob => rfl,
    fun tr st sh ch bch wih now tr2 disp hacc heq => ?_⟩
  · unfold derive_viewport_height_resize
    dsimp only
    split_ifs with h
    · ring
    · rfl
  · unfold Tracker.resize_event at heq
    rw [if_neg hacc] at heq
    dsimp only at heq
    rcases Option.map_eq_some'.1 heq with ⟨p, hp, hinj⟩
    have hvh := (new_fields _ _ _ _ hp).2.2
    have : tr2 = { tr with last_resize_time := now, last_progress := p } :=
      congrArg Prod.fst hinj.symm
    rw [this]
    exact hvh

theorem C9_amended_viewport_derivation_witness :
    ({ progress := 1, scroll_y := 0, scroll_height := 0,
        viewport_height := 300 } : ScrollProgress).viewport_height =
      derive_viewport_height_resize 300 77 600 0 0 := by
  have heval : Tracker.resize_event
      { config := ScrollStorytellerConfig.default,
        last_progress := { progress := 1, scroll_y := 0, scroll_height := 0,
                           viewport_height := 0 },
        callbacks := [7], last_scroll_time := 0, last_resize_time := 0 }
      0 0 300 77 600 250 =
      some ({ config := ScrollStorytellerConfig.default,
              last_progress := { progress := 1, scroll_y := 0,
                                 scroll_height := 0, viewport_height := 300 },
              callbacks := [7], last_scroll_time := 0,
              last_resize_time := 250 },
        [(7, { progress := 1, scroll_y := 0, scroll_height := 0,
               viewport_height := 300 })]) := by
    norm_num [Tracker.resize_event, ScrollStorytellerConfig.default,
      derive_viewport_height_resize, f64_as_i32, ScrollProgress.new,
      ScrollProgress.calculate_progress, clampQ, rclampVal, max_def]
  exact C9_amended_viewport_derivation.2.2
    { config := ScrollStorytellerConfig.default,
      last_progress := { progress := 1, scroll_y := 0, scroll_height := 0,
                         viewport_height := 0 },
      callbacks := [7], last_scroll_time := 0, last_resize_time := 0 }
    0 0 300 77 600 250
    { config := ScrollStorytellerConfig.default,
      last_progress := { progress := 1, scroll_y := 0, scroll_height := 0,
                         viewport_height := 300 },
      callbacks := [7], last_scroll_time := 0, last_resize_time := 250 }
    [(7, { progress := 1, scroll_y := 0, scroll_height := 0,
           viewport_height := 300 })]
    (by norm_num [ScrollStorytellerConfig.default]) heval

/-- C5: over any delivered sequence, an on_enter_range subscription fires
exactly on the first value when already in range and otherwise exactly on
out-to-in transitions, and an on_exit_range subscription never fires on the
first value and otherwise fires exactly on in-to-out transitions; across a
monotone sweep the enter callback fires exactly once iff the sweep meets the
range and the exit callback exactly once iff the sweep enters and then
leaves it. -/
theorem C5_enter_exit_transitions :
    (∀ (f t : ℚ) (ps : List ScrollProgress),
      run_enter f t none ps = enter_fires_claim f t ps)
    ∧ (∀ (f t : ℚ) (ps : List ScrollProgress),
      run_exit f t none ps = exit_fires_claim f t ps)
    ∧ (∀ (f t : ℚ) (ps : List ScrollProgress),
      List.Pairwise (fun a b => a.progress ≤ b.progress) ps →
      List.count true (run_enter f t none ps) =
        if ps.any (fun p => p.is_in_range f t) then 1 else 0)
    ∧ (∀ (f t : ℚ) (ps : List ScrollProgress),
      List.Pairwise (fun a b => a.progress ≤ b.progress) ps →
      List.count true (run_exit f t none ps) =
        if has_exit_pattern f t ps then 1 else 0) :=
  ⟨run_enter_char, run_exit_char, run_enter_sweep, run_exit_sweep⟩

theorem C5_enter_exit_transitions_witness :
    List.Pairwise (fun a b : ScrollProgress => a.progress ≤ b.progress)
        sweep_example ∧
      List.count true (run_enter 2 3 none sweep_example) = 1 ∧
      List.count true (run_exit 2 3 none sweep_example) = 1 := by
  have hpw : List.Pairwise (fun a b : ScrollProgress =>
      a.progress ≤ b.progress) sweep_example := by
    norm_num [sweep_example, List.pairwise_cons]
  refine ⟨hpw, ?_, ?_⟩
  · rw [C5_enter_exit_transitions.2.2.1 2 3 sweep_example hpw]
    norm_num [sweep_example, List.any_cons, ScrollProgress.is_in_range]
  · rw [C5_enter_exit_transitions.2.2.2 2 3 sweep_example hpw]
    norm_num [sweep_example, has_exit_pattern, List.any_cons,
      ScrollProgress.is_in_range]

/-- C10: despite the Result return type, neither scroll_to_progress nor
scroll_to_pixels has a path returning Err: both always return Ok(()). -/
theorem C10_programmatic_scroll_always_ok (tr : Tracker) (p px : ℚ) :
    (tr.scroll_to_progress p).2.2.2 = Except.ok () ∧
      (tr.scroll_to_pixels px).2.2.2 = Except.ok () :=
  ⟨rfl, rfl⟩

end Generik
